import Mathlib

/-
Verification of the transformation pipeline in `etl.py` (a Spark ETL
script producing a star schema: songs, artists, users, time, songplays)
against its natural-language specification.

The relational operators of the script (filter, project, SELECT DISTINCT,
inner join, column addition) are shallowly embedded as list functions.
Spark DoubleType values are only projected and compared for equality by
the pipeline, never computed with, so they are carried by an opaque
numeric carrier (Int).  Python-level and SQL-analysis-level failures of
the script are embedded as Except / error results.
-/

namespace Etl

/-! ## Data model: the two source record types

`CatalogEntry` follows `songdata_schema` (etl.py lines 28-38).  Note the
schema declares `year` as a nullable StringType, not an integer: we keep
that as `Option String`.  The other nullable fields are carried as plain
values because no claim observes their nullability.

`LogEvent` follows `logdata_schema` (etl.py lines 48-67), field order as
declared there. -/

structure CatalogEntry where
  song_id : String
  title : String
  year : Option String
  duration : Int
  artist_id : String
  artist_name : String
  artist_location : String
  artist_latitude : Int
  artist_longitude : Int
deriving DecidableEq

structure LogEvent where
  artist : String
  auth : String
  firstName : String
  gender : String
  itemInSession : Int
  lastName : String
  length : Int
  level : String
  location : String
  method : String
  page : String
  registration : Int
  sessionId : Int
  song : String
  status : Int
  ts : Int
  userAgent : String
  userId : String
deriving DecidableEq

/-! ## The songs table (etl.py lines 86-95)

The SQL text is
  `SELECT DISTINCT song_id, title \ artist_id, year, duration
   FROM staging_songs where year != 0`.
Inside the Python triple-quoted string the backslash-newline is a line
continuation, so the select list reads `song_id, title artist_id, year,
duration`: the missing comma makes `title artist_id` an alias, and the
result has FOUR columns, with the `artist_id` output column holding the
value of the source `title` field.  `SongsRow` embeds that actual output
row shape. -/

structure SongsRow where
  song_id : String
  artist_id : String
  year : Option String
  duration : Int
deriving DecidableEq

/-- Spark evaluation of the predicate `year != 0` on the string-typed
`year` column: the string is cast to a number and compared with 0; a
NULL year, or a string that does not parse as a number, yields NULL and
the row is dropped by the WHERE clause.  (Spark compares string columns
with integer literals numerically; on the integer-formatted year strings
of this dataset an integer parse is exact.) -/
def parseDigits (cs : List Char) : Option Nat :=
  cs.foldl
    (fun acc c =>
      match acc with
      | none => none
      | some n => if c.isDigit then some (n * 10 + (c.toNat - 48)) else none)
    (some 0)

def sparkStringToInt (s : String) : Option Int :=
  match s.data with
  | [] => none
  | '-' :: rest =>
    if rest.isEmpty then none else (parseDigits rest).map (fun n => -(n : Int))
  | cs => (parseDigits cs).map (fun n => (n : Int))

def songYearFilter (y : Option String) : Bool :=
  match y with
  | none => false
  | some s =>
    match sparkStringToInt s with
    | none => false
    | some n => decide (n ≠ 0)

/-- The songs table: WHERE, then the (four-column) projection, then
DISTINCT (etl.py lines 86-90). -/
def songs_table (cat : List CatalogEntry) : List SongsRow :=
  ((cat.filter (fun e => songYearFilter e.year)).map
    (fun e => ⟨e.song_id, e.title, e.year, e.duration⟩)).dedup

/-! ## The artists table (etl.py lines 98-101) -/

structure ArtistsRow where
  artist_id : String
  artist_name : String
  artist_location : String
  artist_latitude : Int
  artist_longitude : Int
deriving DecidableEq

def artists_table (cat : List CatalogEntry) : List ArtistsRow :=
  (cat.map
    (fun e =>
      ⟨e.artist_id, e.artist_name, e.artist_location, e.artist_latitude,
        e.artist_longitude⟩)).dedup

/-- Concrete catalog entry used to exercise the songs projection. -/
def eC1 : CatalogEntry :=
  ⟨"S1", "T1", some "1999", 200, "A1", "N1", "L1", 10, 20⟩

/-! ## The log side, relational layer

etl.py line 118 reassigns `log_data` to the rows with
`page == "NextSong"` and line 119 registers that filtered frame as the
view `staging_logs`; the users table (lines 122-125) and the time table
(lines 133-141) are both SELECTed from this filtered view. -/

def staging_logs (logs : List LogEvent) : List LogEvent :=
  logs.filter (fun e => e.page == "NextSong")

structure UsersRow where
  userId : String
  firstName : String
  lastName : String
  gender : String
  level : String
deriving DecidableEq

/-- The projection of the users SELECT list (etl.py lines 122-123). -/
def userProj (e : LogEvent) : UsersRow :=
  ⟨e.userId, e.firstName, e.lastName, e.gender, e.level⟩

/-- The users table: `SELECT DISTINCT userId, firstName, lastName,
gender, level FROM staging_logs` (etl.py lines 122-125). -/
def users_table (logs : List LogEvent) : List UsersRow :=
  ((staging_logs logs).map userProj).dedup

/-- Modelled from the spec (not from etl.py): the User dimension the
spec describes, built "from ActivityEvent rows only (no filter on
page)".  Used to compare the spec against the filtered view the code
actually reads. -/
def specUsersAllEvents (logs : List LogEvent) : List UsersRow :=
  (logs.map userProj).dedup

/-! ## The time table (etl.py lines 133-141)

`SELECT startTime, hour(startTime) AS hour, day(startTime) AS day,
weekofyear(startTime) AS week, month(startTime) AS month,
year(startTime) AS year, weekday(startTime) AS weekday FROM
staging_logs` — no DISTINCT: one output row per (filtered) input row.

`startTime` is the string-valued timestamp column the script intends to
derive from the epoch-millisecond `ts` field (etl.py lines 70-73); the
conversion and the calendar functions of the engine are not fixed by
the source, so the embedding takes them as parameters (`civil`, the
composite millisecond-to-civil-timestamp-string conversion, and
`CalendarFns`, the six calendar part extractors). -/

structure CalendarFns where
  hourF : String → Int
  dayF : String → Int
  weekF : String → Int
  monthF : String → Int
  yearF : String → Int
  weekdayF : String → Int

structure TimeRow where
  startTime : String
  hour : Int
  day : Int
  week : Int
  month : Int
  year : Int
  weekday : Int
deriving DecidableEq

def timeRowOf (civil : Int → String) (c : CalendarFns) (e : LogEvent) : TimeRow :=
  let st := civil e.ts
  ⟨st, c.hourF st, c.dayF st, c.weekF st, c.monthF st, c.yearF st, c.weekdayF st⟩

def time_table (civil : Int → String) (c : CalendarFns)
    (logs : List LogEvent) : List TimeRow :=
  (staging_logs logs).map (timeRowOf civil c)

/-! Concrete fixtures for the log side. -/

/-- A play event whose `userId` is the empty string. -/
def eEmptyUser : LogEvent :=
  ⟨"N1", "Logged In", "F", "M", 0, "L", 200, "free", "Loc", "PUT",
    "NextSong", 0, 1, "T1", 200, 1541990395796, "UA", ""⟩

/-- An activity event whose page is not "NextSong". -/
def eHome : LogEvent :=
  ⟨"N2", "Logged In", "Fn", "F", 0, "Ln", 100, "paid", "Loc", "GET",
    "Home", 0, 2, "T2", 200, 1541990395900, "UA", "u1"⟩

/-- Two distinct play events carrying the same `ts` value. -/
def ev1 : LogEvent :=
  ⟨"N1", "Logged In", "F", "M", 0, "L", 200, "free", "Loc", "PUT",
    "NextSong", 0, 1, "T1", 200, 1541990395796, "UA", "u1"⟩

def ev2 : LogEvent :=
  ⟨"N1", "Logged In", "F", "M", 1, "L", 200, "free", "Loc", "PUT",
    "NextSong", 0, 2, "T1", 200, 1541990395796, "UA", "u1"⟩

/-- A concrete stand-in for the timestamp conversion: both `ev1` and
`ev2` carry the same `event_epoch_ms`, so every conversion sends them to
the same timestamp string; a constant makes that explicit. -/
def civil0 : Int → String := fun _ => "T"

def cal0 : CalendarFns :=
  ⟨fun _ => 0, fun _ => 0, fun _ => 0, fun _ => 0, fun _ => 0, fun _ => 0⟩

/-! ## The songplays fact row and `monotonically_increasing_id`

The songplays SELECT list (etl.py lines 163-166) projects startTime,
userId, level, song_id, artist_id, sessionId, location, userAgent, and
the derived partition columns year(startTime), month(startTime); line
167 then appends `songplay_id` via `monotonically_increasing_id()`.

That Spark function computes, for the row at index `i` of partition
`pid`, the id `pid * 2 ^ 33 + i`, under the documented assumption that
each partition holds at most `2 ^ 33` rows.  The embedding takes the
physical partition layout (a list of partitions) as input, since Spark
does not fix it. -/

structure FactRow where
  startTime : String
  userId : String
  level : String
  song_id : String
  artist_id : String
  sessionId : Int
  location : String
  userAgent : String
  year : Int
  month : Int
deriving DecidableEq

def partitionIds (pid : Nat) (part : List α) : List (α × Nat) :=
  part.enum.map (fun p => (p.2, pid * 2 ^ 33 + p.1))

def assignIdsFrom (pid : Nat) : List (List α) → List (α × Nat)
  | [] => []
  | part :: rest => partitionIds pid part ++ assignIdsFrom (pid + 1) rest

/-- The `withColumn('songplay_id', monotonically_increasing_id())` step
(etl.py line 167), applied to a physically partitioned row set. -/
def assignIds (parts : List (List α)) : List (α × Nat) :=
  assignIdsFrom 0 parts

/-- A concrete fact row. -/
def fr1 : FactRow :=
  ⟨"T", "u1", "free", "S1", "A1", 1, "Loc", "UA", 2018, 11⟩

/-! ## Python-level and SQL-analysis-level failures

etl.py line 73 is
  `log_df = log_df.withColumn('startTime', str(log_df.timeStamp))`.
`log_df.timeStamp` is a Column object; Python `str` of it returns its
repr, a plain string, and `DataFrame.withColumn` asserts that its second
argument is a Column ("col should be Column").  So `create_log_dataframe`
raises on every input whose read succeeds.

etl.py lines 152-159 run a query `FROM staging_logs l INNER JOIN
song_df s ON staging_logs.artist = song_df.artist_name`; `song_df` is a
local Python DataFrame variable (line 151) that is never registered as a
temp view, so SQL analysis cannot resolve the name and the query fails.
The views the script has registered by that point (same Spark session,
lines 83, 93, 104, 119, 128, 145) are listed in
`registeredViewsAtSongplays`. -/

inductive EtlError where
  | sourceNotFound (stream : String)
  | pyTypeError (msg : String)
  | viewNotFound (view : String)
deriving DecidableEq

inductive PyVal where
  | column (name : String)
  | str (s : String)
deriving DecidableEq

/-- Python `str(x)` on the values the script passes around: a Column has
no string conversion of its own, so `str` yields its repr. -/
def pyStr : PyVal → PyVal
  | .column n => .str ("Column<" ++ n ++ ">")
  | .str s => .str s

/-- The argument check of `DataFrame.withColumn`: the new column must be
a Column object. -/
def withColumnArgCheck : PyVal → Except EtlError Unit
  | .column _ => .ok ()
  | .str _ => .error (.pyTypeError "col should be Column")

/-- `create_log_dataframe` (etl.py lines 42-74): read the log source (a
missing root or zero matched files fails the read), derive the
`timeStamp` column from `ts` via the udf (line 71), then attempt to add
`startTime` (line 73) — which passes `str` of a Column to `withColumn`
and therefore raises. -/
def create_log_dataframe (civil : Int → String)
    (logSrc : Option (List LogEvent)) :
    Except EtlError (List (LogEvent × String)) :=
  match logSrc with
  | none => .error (.sourceNotFound "log_data")
  | some logs =>
    let withTimeStamp := logs.map (fun e => (e, civil e.ts))
    match withColumnArgCheck (pyStr (PyVal.column "timeStamp")) with
    | .error e => .error e
    | .ok _ => .ok withTimeStamp

def registeredViewsAtSongplays : List String :=
  ["staging_songs", "songs", "artists", "staging_logs", "users", "time"]

def resolveView (env : List String) (v : String) : Except EtlError Unit :=
  if v ∈ env then .ok () else .error (.viewNotFound v)

/-- Name resolution of the two FROM sources of the songplays join query
(etl.py lines 152-159). -/
def songplaysJoinResolution (env : List String) : Except EtlError Unit := do
  resolveView env "staging_logs"
  resolveView env "song_df"

/-! ## The run model: which tables are written, in which order

`main` (etl.py lines 176-193) calls `process_song_data` first and
`process_log_data` second.  Each processing function is embedded as a
state-passing function from the list of already-written tables to the
new list plus an optional fatal error; an error aborts the run (an
uncaught Python exception), keeping the tables already written. -/

inductive WrittenTable where
  | songs (rows : List SongsRow)
  | artists (rows : List ArtistsRow)
  | users (rows : List UsersRow)
  | time (rows : List TimeRow)
  | songplays (rows : List (FactRow × Nat))
deriving DecidableEq

/-- `process_song_data` (etl.py lines 77-107): read the catalog source
(missing root or zero matched files is a fatal read error), write the
songs table, then write the artists table. -/
def process_song_data (catalogSrc : Option (List CatalogEntry))
    (written : List WrittenTable) :
    List WrittenTable × Option EtlError :=
  match catalogSrc with
  | none => (written, some (.sourceNotFound "song_data"))
  | some cat =>
    (written ++ [.songs (songs_table cat), .artists (artists_table cat)], none)

/-- `process_log_data` (etl.py lines 110-173): build the log dataframe
(which raises at the `startTime` column, see `create_log_dataframe`);
were that reached, write users and time, then run the songplays join —
whose FROM clause fails to resolve `song_df`.  The songplays write is
never performed on any path. -/
def process_log_data (civil : Int → String) (c : CalendarFns)
    (logSrc : Option (List LogEvent)) (written : List WrittenTable) :
    List WrittenTable × Option EtlError :=
  match create_log_dataframe civil logSrc with
  | .error e => (written, some e)
  | .ok enriched =>
    let logs := enriched.map Prod.fst
    let w1 := written ++
      [.users (users_table logs), .time (time_table civil c logs)]
    match songplaysJoinResolution registeredViewsAtSongplays with
    | .error e => (w1, some e)
    | .ok _ => (w1, none)

/-- `main` (etl.py lines 176-193): song processing first, then log
processing; a raised error aborts the remainder of the run. -/
def main_run (civil : Int → String) (c : CalendarFns)
    (catalogSrc : Option (List CatalogEntry))
    (logSrc : Option (List LogEvent)) :
    List WrittenTable × Option EtlError :=
  match process_song_data catalogSrc [] with
  | (w, some e) => (w, some e)
  | (w, none) => process_log_data civil c logSrc w

/-! ## Lemmas about the id assignment -/

lemma snd_partitionIds (pid : Nat) (part : List α) :
    (partitionIds pid part).map Prod.snd
      = (List.range part.length).map (fun i => pid * 2 ^ 33 + i) := by
  unfold partitionIds
  rw [List.map_map]
  have h : (Prod.snd ∘ fun p : Nat × α => (p.2, pid * 2 ^ 33 + p.1)) =
      (fun i => pid * 2 ^ 33 + i) ∘ Prod.fst := rfl
  rw [h, ← List.map_map, List.enum_map_fst]

lemma fst_partitionIds (pid : Nat) (part : List α) :
    (partitionIds pid part).map Prod.fst = part := by
  unfold partitionIds
  rw [List.map_map]
  have h : (Prod.fst ∘ fun p : Nat × α => (p.2, pid * 2 ^ 33 + p.1)) =
      (Prod.snd : Nat × α → α) := rfl
  rw [h, List.enum_map_snd]

lemma mem_snd_partitionIds {x pid : Nat} {part : List α}
    (hx : x ∈ (partitionIds pid part).map Prod.snd) :
    pid * 2 ^ 33 ≤ x ∧ x < pid * 2 ^ 33 + part.length := by
  rw [snd_partitionIds] at hx
  obtain ⟨i, hi, rfl⟩ := List.mem_map.mp hx
  rw [List.mem_range] at hi
  omega

lemma nodup_snd_partitionIds (pid : Nat) (part : List α) :
    ((partitionIds pid part).map Prod.snd).Nodup := by
  rw [snd_partitionIds]
  exact List.Nodup.map (fun a b h => by omega) (List.nodup_range _)

lemma lb_assignIdsFrom (parts : List (List α)) :
    ∀ pid, ∀ x ∈ (assignIdsFrom pid parts).map Prod.snd, pid * 2 ^ 33 ≤ x := by
  induction parts with
  | nil => intro pid x hx; simp [assignIdsFrom] at hx
  | cons part rest ih =>
    intro pid x hx
    simp only [assignIdsFrom, List.map_append, List.mem_append] at hx
    rcases hx with hx | hx
    · exact (mem_snd_partitionIds hx).1
    · have h1 := ih (pid + 1) x hx
      have h2 : (pid + 1) * 2 ^ 33 = pid * 2 ^ 33 + 2 ^ 33 := by ring
      omega

lemma nodup_assignIdsFrom (parts : List (List α)) :
    ∀ pid, (∀ part ∈ parts, part.length ≤ 2 ^ 33) →
      ((assignIdsFrom pid parts).map Prod.snd).Nodup := by
  induction parts with
  | nil => intro pid _; simp [assignIdsFrom]
  | cons part rest ih =>
    intro pid h
    simp only [assignIdsFrom, List.map_append]
    refine List.Nodup.append (nodup_snd_partitionIds pid part)
      (ih (pid + 1) (fun q hq => h q (List.mem_cons_of_mem _ hq))) ?_
    intro x hx1 hx2
    have hb := mem_snd_partitionIds hx1
    have hl := lb_assignIdsFrom rest (pid + 1) x hx2
    have hlen : part.length ≤ 2 ^ 33 := h part (List.mem_cons_self _ _)
    have he : (pid + 1) * 2 ^ 33 = pid * 2 ^ 33 + 2 ^ 33 := by ring
    omega

lemma fst_assignIdsFrom (parts : List (List α)) :
    ∀ pid, (assignIdsFrom pid parts).map Prod.fst = parts.flatten := by
  induction parts with
  | nil => intro pid; simp [assignIdsFrom]
  | cons part rest ih =>
    intro pid
    simp only [assignIdsFrom, List.map_append, fst_partitionIds, ih,
      List.flatten_cons]

/-! ## The claims -/

/-- C1: the claim states that the Song dimension is exactly the set of
distinct (song_id, title, artist_id, year, duration_seconds) tuples of
the catalog with year not 0.  The songs SELECT list (etl.py lines
86-87) is missing a comma after `title`, so `title artist_id` is parsed
as an alias: the written table has only four columns and its
`artist_id` column carries the source title.  Evaluating the embedded
songs table on a one-entry catalog shows the output row holds the
title "T1" in its artist_id field while the entry's real artist_id
"A1" appears nowhere. -/
theorem c1_songs_table_aliases_title_as_artist_id :
    songs_table [eC1] = [⟨"S1", "T1", some "1999", 200⟩] ∧
    eC1.title = "T1" ∧ eC1.artist_id = "A1" := by decide

/-- C2 (amended): the User dimension rows computed by the users query
are exactly the distinct (userId, firstName, lastName, gender, level)
tuples over the activity events with page == "NextSong" — the query
reads the page-filtered view `staging_logs` (etl.py lines 118-125), so
events with any other page contribute no row. -/
theorem c2_users_table_only_nextsong (logs : List LogEvent) (r : UsersRow) :
    (users_table logs).Nodup ∧
    (r ∈ users_table logs ↔
      ∃ e, e ∈ logs ∧ e.page = "NextSong" ∧ r = userProj e) := by
  constructor
  · exact List.nodup_dedup _
  · rw [users_table, List.mem_dedup, List.mem_map]
    constructor
    · rintro ⟨e, he, rfl⟩
      rw [staging_logs, List.mem_filter] at he
      exact ⟨e, he.1, by simpa using he.2, rfl⟩
    · rintro ⟨e, he, hp, rfl⟩
      refine ⟨e, ?_, rfl⟩
      rw [staging_logs, List.mem_filter]
      exact ⟨he, by simp [hp]⟩

/-- C2 witness: the characterization applied at a concrete log. -/
theorem c2_witness : (users_table [eEmptyUser]).Nodup :=
  (c2_users_table_only_nextsong [eEmptyUser] ⟨"", "F", "L", "M", "free"⟩).1

/-- C2 counterexample: the claim says the User dimension has no filter
on page, so an event with page == "Home" would contribute a row; on a
log holding exactly that event, the table the code computes is empty
while the distinct projection over all events (the claimed table, built
by `specUsersAllEvents`) is not. -/
theorem c2_counterexample :
    users_table [eHome] ≠ specUsersAllEvents [eHome] := by decide

/-- C3: the claim states that a fact row is produced for each pair of a
NextSong event and a catalog entry with equal artist name.  The code
never produces any fact row: `process_log_data` raises while building
the log dataframe (the startTime column, etl.py line 73), leaving the
written-table list unchanged, and — independently — the songplays join
query names the view `song_df`, which is never registered, so its name
resolution fails too (etl.py lines 151-159). -/
theorem c3_no_fact_rows (civil : Int → String) (c : CalendarFns)
    (logs : List LogEvent) (written : List WrittenTable) :
    process_log_data civil c (some logs) written =
      (written, some (.pyTypeError "col should be Column")) ∧
    songplaysJoinResolution registeredViewsAtSongplays =
      .error (.viewNotFound "song_df") := by
  refine ⟨rfl, ?_⟩
  simp only [songplaysJoinResolution, resolveView, registeredViewsAtSongplays]
  rfl

/-- C3 witness: the failure evaluated on a concrete run holding one
NextSong event that matches one catalog entry by artist name. -/
theorem c3_witness :
    process_log_data civil0 cal0 (some [ev1]) [] =
      ([], some (.pyTypeError "col should be Column")) :=
  (c3_no_fact_rows civil0 cal0 [ev1] []).1

/-- C4 (amended): the time table holds one row per activity event with
page == "NextSong" — the SELECT has no DISTINCT (etl.py lines 133-141)
— so a timestamp occurring in k such events occurs in k rows; each row
carries the six calendar parts of its own startTime. -/
theorem c4_time_table_row_per_event (civil : Int → String) (c : CalendarFns)
    (logs : List LogEvent) (t : String) :
    (time_table civil c logs).countP (fun r => r.startTime == t) =
      logs.countP (fun e => (civil e.ts == t) && (e.page == "NextSong")) ∧
    (time_table civil c logs).all
      (fun r => (r.hour == c.hourF r.startTime) && (r.day == c.dayF r.startTime)
        && (r.week == c.weekF r.startTime) && (r.month == c.monthF r.startTime)
        && (r.year == c.yearF r.startTime)
        && (r.weekday == c.weekdayF r.startTime)) = true := by
  constructor
  · rw [time_table, staging_logs, List.countP_map, List.countP_filter]
    rfl
  · rw [List.all_eq_true]
    intro r hr
    rw [time_table, List.mem_map] at hr
    obtain ⟨e, _, rfl⟩ := hr
    simp [timeRowOf]

/-- C4 witness: the row-multiplicity equation at a concrete log. -/
theorem c4_witness :
    (time_table civil0 cal0 [ev1, ev2]).countP (fun r => r.startTime == "T") =
      [ev1, ev2].countP
        (fun e => (civil0 e.ts == "T") && (e.page == "NextSong")) :=
  (c4_time_table_row_per_event civil0 cal0 [ev1, ev2] "T").1

/-- C4 counterexample: two play events with the same event_epoch_ms
yield two time rows with the same timestamp, so the claimed property
that no timestamp value occurs in two Time-dimension rows is false. -/
theorem c4_counterexample :
    ¬ ((time_table civil0 cal0 [ev1, ev2]).map TimeRow.startTime).Nodup := by
  decide

/-- C5 (amended): the users query applies no user_id filter at all —
only the page filter excludes events — so a NextSong event whose
user_id is the empty string contributes its tuple to the User
dimension. -/
theorem c5_no_userid_filter (logs : List LogEvent) (e : LogEvent)
    (h1 : e ∈ logs) (h2 : e.page = "NextSong") :
    userProj e ∈ users_table logs := by
  rw [users_table, List.mem_dedup, List.mem_map]
  refine ⟨e, ?_, rfl⟩
  rw [staging_logs, List.mem_filter]
  exact ⟨h1, by simp [h2]⟩

/-- C5 witness: a NextSong event with empty userId, included. -/
theorem c5_witness : userProj eEmptyUser ∈ users_table [eEmptyUser] :=
  c5_no_userid_filter [eEmptyUser] eEmptyUser (by decide) (by decide)

/-- C5 counterexample: the claim states no User-dimension row has an
empty user_id; on a log holding one NextSong event with empty userId,
the users table holds exactly the row with userId = "". -/
theorem c5_counterexample :
    (⟨"", "F", "L", "M", "free"⟩ : UsersRow) ∈ users_table [eEmptyUser] ∧
    (⟨"", "F", "L", "M", "free"⟩ : UsersRow).userId = "" := by decide

/-- C6 (amended): a missing (or zero-file) source is fatal for its
stream, but the two streams are processed in sequence (etl.py lines
192-193): a missing catalog source aborts the run before any table is
written, while a missing activity-log source aborts the run only after
the Song and Artist tables have already been written. -/
theorem c6_missing_source_abort (civil : Int → String) (c : CalendarFns)
    (logSrc : Option (List LogEvent)) (cat : List CatalogEntry) :
    main_run civil c none logSrc = ([], some (.sourceNotFound "song_data")) ∧
    main_run civil c (some cat) none =
      ([.songs (songs_table cat), .artists (artists_table cat)],
        some (.sourceNotFound "log_data")) := by
  exact ⟨rfl, rfl⟩

/-- C6 witness: the abort behaviour at concrete sources. -/
theorem c6_witness :
    main_run civil0 cal0 none none = ([], some (.sourceNotFound "song_data")) :=
  (c6_missing_source_abort civil0 cal0 none []).1

/-- C6 counterexample: the claim states that when the activity-log
source is absent no table — including Song and Artist — has been
written at the moment of failure; running the model with a present
catalog and an absent log source fails with a non-empty list of written
tables. -/
theorem c6_counterexample :
    (main_run civil0 cal0 (some [eC1]) none).2 =
      some (.sourceNotFound "log_data") ∧
    (main_run civil0 cal0 (some [eC1]) none).1 ≠ [] := by decide

/-- C7: the claim states the derived event_timestamp is computed once
and read by the downstream dimension and fact logic.  In the code the
second derivation step (etl.py line 73) passes `str(log_df.timeStamp)` —
the repr string of a Column object, not a Column — to `withColumn`,
whose argument check fails, so `create_log_dataframe` raises on every
input whose read succeeds and no downstream logic ever reads a derived
timestamp. -/
theorem c7_startTime_derivation_raises (civil : Int → String)
    (logs : List LogEvent) :
    create_log_dataframe civil (some logs) =
      .error (.pyTypeError "col should be Column") ∧
    pyStr (PyVal.column "timeStamp") = PyVal.str "Column<timeStamp>" := by
  exact ⟨rfl, by decide⟩

/-- C7 witness: the failure at a concrete log with
event_epoch_ms = 1541990395796. -/
theorem c7_witness :
    create_log_dataframe civil0 (some [ev1]) =
      .error (.pyTypeError "col should be Column") :=
  (c7_startTime_derivation_raises civil0 [ev1]).1

/-- C8: the songplay_id values assigned by the
`monotonically_increasing_id` step (etl.py line 167) are pairwise
distinct for any partition layout in which each partition holds at most
2 ^ 33 rows (the documented operating assumption of that Spark
function). -/
theorem c8_songplay_ids_nodup (parts : List (List FactRow))
    (h : ∀ part ∈ parts, part.length ≤ 2 ^ 33) :
    ((assignIds parts).map Prod.snd).Nodup :=
  nodup_assignIdsFrom parts 0 h

/-- C8 witness: distinct ids on a concrete two-partition layout. -/
theorem c8_witness :
    ((assignIds [[fr1], [fr1, fr1]]).map Prod.snd).Nodup :=
  c8_songplay_ids_nodup [[fr1], [fr1, fr1]] (by decide)

/-- C9: the only nondeterminism the embedding models is the physical
partition layout feeding the songplay_id assignment; two runs over the
same fact rows, with any two layouts of those rows, agree on the
songplays contents up to reordering once songplay_id is ignored (the
four dimension tables are pure functions of the input streams by
construction). -/
theorem c9_songplays_layout_independent (parts1 parts2 : List (List FactRow))
    (rows : List FactRow)
    (h1 : List.Perm parts1.flatten rows) (h2 : List.Perm parts2.flatten rows) :
    List.Perm ((assignIds parts1).map Prod.fst)
      ((assignIds parts2).map Prod.fst) := by
  simp only [assignIds, fst_assignIdsFrom]
  exact h1.trans h2.symm

/-- C9 witness: two different layouts of the same single fact row. -/
theorem c9_witness :
    List.Perm ((assignIds [[fr1]]).map Prod.fst)
      ((assignIds [[], [fr1]]).map Prod.fst) :=
  c9_songplays_layout_independent [[fr1]] [[], [fr1]] [fr1]
    (by decide) (by decide)

/-- C10: the catalog schema declares `year` as a nullable string (etl.py
line 31), the Song-dimension rows carry that string value verbatim from
the catalog entry, and the `year != 0` exclusion is evaluated on the
string-typed column: a NULL year or a non-numeric string fails the
predicate (NULL comparison), "0" is excluded, and a numeric string such
as "1999" passes. -/
theorem c10_year_is_string_typed :
    (∀ cat r, r ∈ songs_table cat →
      ∃ e, e ∈ cat ∧ SongsRow.year r = e.year ∧ songYearFilter e.year = true) ∧
    songYearFilter none = false ∧
    songYearFilter (some "0") = false ∧
    songYearFilter (some "abc") = false ∧
    songYearFilter (some "1999") = true := by
  refine ⟨?_, by decide, by decide, by decide, by decide⟩
  intro cat r hr
  rw [songs_table, List.mem_dedup, List.mem_map] at hr
  obtain ⟨e, he, rfl⟩ := hr
  rw [List.mem_filter] at he
  exact ⟨e, he.1, rfl, he.2⟩

/-- C10 witness: the carried-through year string on a concrete
catalog. -/
theorem c10_witness :
    ∃ e, e ∈ [eC1] ∧
      SongsRow.year ⟨"S1", "T1", some "1999", 200⟩ = e.year ∧
      songYearFilter e.year = true :=
  c10_year_is_string_typed.1 [eC1] ⟨"S1", "T1", some "1999", 200⟩ (by decide)

end Etl
